import Mathlib

/-!
Verification of the reportio backup/resume cache and report orchestration
against its natural-language specification.

The development shallowly embeds the relevant methods of
`reportio.templates.ReportTemplate` (src/templates/__init__.py) and
`reportio.templates.simple.SimpleReport` (src/templates/simple.py):

* the backup directory is an association list from file names to file
  contents (`Dir`);
* a pandas DataFrame is a list of column labels together with a list of
  rows (`DataFrame`); only the row/column counts and value identity matter
  to the embedded code paths;
* each stateful method becomes a pure function from the relevant pieces of
  object state to the new state plus an event trace, so that ordering
  claims ("the marker is written last") become claims about traces;
* Python exceptions become `Except` results.
-/

namespace Reportio

/-- When the separator is a prefix of the character list, return the
remainder; otherwise `none`. -/
def sepRest : List Char → List Char → Option (List Char)
  | [], l => some l
  | _ :: _, [] => none
  | p :: ps, c :: cs => if c = p then sepRest ps cs else none

/-- Left-to-right, non-overlapping split of a character list on a
separator, exactly as Python `str.split` with a nonempty separator.
`fuel` only drives the structural recursion; any value at least the
length of the list (with a nonempty separator) gives the true result. -/
def splitChars (sep : List Char) : Nat → List Char → List Char →
    List (List Char)
  | 0, l, acc => [acc.reverse ++ l]
  | fuel + 1, l, acc =>
    match l with
    | [] => [acc.reverse]
    | c :: cs =>
      match sepRest sep l with
      | some rest => acc.reverse :: splitChars sep fuel rest []
      | none => splitChars sep fuel cs (c :: acc)

/-- Python `s.split(sep)` for a nonempty separator. -/
def pySplit (sep s : String) : List String :=
  (splitChars sep.data s.data.length s.data []).map List.asString

/-- Python `s.split(sep)[-1]`: the last component of the split (the whole
string when the separator does not occur, since `split` then yields a
one-element list). -/
def lastSplit (sep s : String) : String :=
  (pySplit sep s).getLastD s

/-- Python `s.split(sep)[0]`: the first component of the split. -/
def headSplit (sep s : String) : String :=
  (pySplit sep s).headD s

/-- A materialized query result.  `columns` models `data.columns` and
`index` models the rows (`len(data.index)` is the row count). -/
structure DataFrame where
  columns : List String
  index : List (List String)
deriving DecidableEq, Repr

/-- Content of a file in the backup directory: either a gzip-compressed
parquet serialization of a dataframe, or plain text (the marker file). -/
inductive FileData
  | parquet (df : DataFrame)
  | text (s : String)
deriving DecidableEq, Repr

/-- The backup directory: an association list from file name to content.
`os.listdir` order is the list order; `os.path.isfile`/`open` resolve a
name to the first matching entry. -/
abbrev Dir := List (String × FileData)

/-- Model of `os.listdir` of the backup directory. -/
def listdir (dir : Dir) : List String :=
  dir.map Prod.fst

/-- Resolve a file name in the backup directory to the content of the
first matching entry (the combination of `os.path.isfile` and `open`). -/
def lookupFile (dir : Dir) (name : String) : Option FileData :=
  match dir with
  | [] => none
  | e :: t => if e.1 == name then some e.2 else lookupFile t name

/-- Extension test of `ReportTemplate.delete_data_backup`: a file is removed exactly when
`file_location.split(".")[-1] in ["gz", "txt"]`
(src/templates/__init__.py line 272). -/
def isBackupExt (name : String) : Bool :=
  lastSplit "." name == "gz" || lastSplit "." name == "txt"

/-- Observable events of one `delete_data_backup` sweep, in order. -/
inductive DelEvent
  | hookCall (path : String)
  | removed (path : String)
deriving DecidableEq, Repr

/-- Event trace of `ReportTemplate.delete_data_backup`
(src/templates/__init__.py lines 255-274): for each file of the directory
listing in order, first invoke the optional per-file hook (when one was
passed), then delete the file when its extension is `gz` or `txt`. -/
def delTrace (withHook : Bool) (dir : Dir) : List DelEvent :=
  dir.flatMap fun e =>
    (if withHook then [DelEvent.hookCall e.1] else [])
      ++ (if isBackupExt e.1 then [DelEvent.removed e.1] else [])

/-- Model of `ReportTemplate.delete_data_backup`: the resulting directory state
(every `gz`/`txt` file removed) together with the event trace. -/
def delete_data_backup (withHook : Bool) (dir : Dir) : Dir × List DelEvent :=
  (dir.filter fun e => !(isBackupExt e.1), delTrace withHook dir)

/-- Result of `ReportTemplate.attempt_resume`
(src/templates/__init__.py lines 276-327). -/
structure ResumeResult where
  file_list : List String
  dir : Dir
  hook1Ran : Bool
  delEvents : List DelEvent
deriving DecidableEq, Repr

/-- Reading file bytes as text: a parquet-content file read as text is
modelled as the empty string (opaque binary bytes, never an ISO date). -/
def readText : FileData → String
  | .text s => s
  | .parquet _ => ""

/-- Model of `ReportTemplate.attempt_resume`: looks for the marker `startDate.txt`
in the backup directory listing (membership in `os.listdir` coincides with
a successful association-list lookup), reads it, and either enumerates the
`gz` files (marker content equals the current ISO date), purges the directory
via `delete_data_backup` (stale marker), or does nothing (no marker).
`hook1`/`hook2` record whether the two optional callables were passed. -/
def attempt_resume (today : String) (hook1 hook2 : Bool) (dir : Dir) :
    ResumeResult :=
  match lookupFile dir "startDate.txt" with
  | some content =>
    if readText content == today then
      { file_list := (listdir dir).filter fun f => lastSplit "." f == "gz"
        dir := dir
        hook1Ran := hook1
        delEvents := [] }
    else
      let purged := delete_data_backup hook2 dir
      { file_list := []
        dir := purged.1
        hook1Ran := false
        delEvents := purged.2 }
  | none =>
    { file_list := [], dir := dir, hook1Ran := false, delEvents := [] }

/-- Outcome of the copy body `pd.read_parquet(file).to_parquet(...)` for
one entry of the open-file list inside `backup_data`: success, an
`AttributeError` (the only exception type the `except` clause names), or
an exception of any other type. -/
inductive CopyOutcome
  | ok
  | attributeError
  | otherError
deriving DecidableEq, Repr

/-- One entry of the run-scoped open-file list `self._files`: a
`NamedTemporaryFile` handle.  `hasName` models `hasattr(file, "name")`,
`existsOnDisk` models `os.path.isfile(file.name)`, `content` is the
dataframe serialized into the file, and `copyOutcome` is what the copy
body does when executed on this handle. -/
structure TempFile where
  name : String
  hasName : Bool
  existsOnDisk : Bool
  content : DataFrame
  copyOutcome : CopyOutcome
deriving DecidableEq, Repr

/-- Writing a file: overwrite the entry when the name already exists in
the directory, append it otherwise. -/
def writeFile (dir : Dir) (name : String) (c : FileData) : Dir :=
  if dir.any fun e => e.1 == name then
    dir.map fun e => if e.1 == name then (name, c) else e
  else
    dir ++ [(name, c)]

/-- A temp-file handle is eligible for backup when it has a `name`
attribute, the final extension of the name is `gz`, and the file still exists
on disk (the three guards at src/templates/__init__.py lines 233-235). -/
def backupEligible (f : TempFile) : Bool :=
  f.hasName && (lastSplit "." f.name == "gz") && f.existsOnDisk

/-- Observable events of one `backup_data` call, in order. -/
inductive BkEvent
  | copied (dest : String)
  | hookRun
  | markerWritten (content : String)
deriving DecidableEq, Repr

/-- The per-file copy loop of `ReportTemplate.backup_data`
(src/templates/__init__.py lines 232-246): each eligible handle is copied
into the backup directory under `file.name.split("__")[-1]`; an
`AttributeError` from the copy body is caught and the loop continues; any
other exception propagates out of `backup_data`. -/
def copyFiles (dir : Dir) : List TempFile → Except Unit (Dir × List BkEvent)
  | [] => .ok (dir, [])
  | f :: fs =>
    if backupEligible f then
      match f.copyOutcome with
      | .otherError => .error ()
      | .attributeError => copyFiles dir fs
      | .ok =>
        let dest := lastSplit "__" f.name
        match copyFiles (writeFile dir dest (.parquet f.content)) fs with
        | .ok (d, evs) => .ok (d, .copied dest :: evs)
        | .error e => .error e
    else
      copyFiles dir fs

/-- Model of `ReportTemplate.backup_data` (src/templates/__init__.py lines
215-253): copy the eligible open files, then run the optional hook when
one was passed, then write (or overwrite) the marker `startDate.txt` with
`self.start_date` — the ISO date captured by `__init__` at line 145. -/
def backup_data (hookPresent : Bool) (start_date : String)
    (files : List TempFile) (dir : Dir) :
    Except Unit (Dir × List BkEvent) :=
  match copyFiles dir files with
  | .error e => .error e
  | .ok (d, evs) =>
    let evs := evs ++ (if hookPresent then [BkEvent.hookRun] else [])
    .ok (writeFile d "startDate.txt" (.text start_date),
         evs ++ [BkEvent.markerWritten start_date])

/-- The retry loop of `ReportTemplate.get_connection`
(src/templates/__init__.py lines 352-383): `attempts n` is whether the
`n`-th connection attempt (0-based) succeeds; a successful attempt at
index `n` yields connection handle `n`.  `remaining` counts the failures
still tolerated before `i > 5` raises `DBConnectionError`: the counter
`i` starts at 0 and the raise fires once `i` reaches 6, so the initial
call uses `remaining = 5`. -/
def connRetry (attempts : Nat → Bool) : Nat → Nat → Except Unit Nat
  | k, 0 => if attempts k then .ok k else .error ()
  | k, r + 1 => if attempts k then .ok k else connRetry attempts (k + 1) r

/-- Model of `ReportTemplate.get_connection` (src/templates/__init__.py lines
329-387): return the memoized handle when `database_name` is already a
key of `connection_dictionary`; otherwise run the retry loop, memoize the
new handle on success, and raise `DBConnectionError` after the failure
counter passes 5. -/
def get_connection (dct : List (String × Nat)) (database_name : String)
    (attempts : Nat → Bool) : Except Unit (Nat × List (String × Nat)) :=
  match dct.lookup database_name with
  | some c => .ok (c, dct)
  | none =>
    match connRetry attempts 0 5 with
    | .ok k => .ok (k, dct ++ [(database_name, k)])
    | .error e => .error e

/-- Model of `ReportTemplate.get_temp_file` (src/templates/__init__.py lines
494-529): allocate a uniquely named temp file suffixed
`__<file_name>.gz`, serialize the dataframe into it, and append the
handle to the run-scoped open-file list.  `tmpStem` stands for the random
stem `NamedTemporaryFile` chooses. -/
def get_temp_file (tmpStem file_name : String) (data : DataFrame)
    (files : List TempFile) : TempFile × List TempFile :=
  let f : TempFile :=
    { name := tmpStem ++ "__" ++ file_name ++ ".gz"
      hasName := true
      existsOnDisk := true
      content := data
      copyOutcome := .ok }
  (f, files ++ [f])

/-- What `get_data` hands back as its first component: a temp-file handle
(when a dataset name was given) or the raw in-memory dataframe. -/
inductive DataResult
  | tempFile (f : TempFile)
  | frame (df : DataFrame)
deriving DecidableEq, Repr

/-- The dataframe a `DataResult` carries. -/
def DataResult.contentOf : DataResult → DataFrame
  | .tempFile f => f.content
  | .frame df => df

/-- Errors `get_data` can raise: `UnexpectedDbType` when `db_type` is not
a key of `config["DB"]`, `DBConnectionError` propagated out of
`get_connection`, and a read failure of a corrupt backup file. -/
inductive GdError
  | unexpectedDbType
  | connectionError
  | parquetError
deriving DecidableEq, Repr

/-- Successful result of `get_data`: the data, the connection object
returned to the caller, the new open-file list, and whether a SQL query
was executed against a connection. -/
structure GetDataOk where
  data : DataResult
  connection : Option Nat
  files : List TempFile
  sqlExecuted : Bool
deriving DecidableEq, Repr

/-- Ambient state `get_data` draws on: the key set of `config["DB"]`, the
database itself (`pd.read_sql` as a function of the SQL text and the
connection handle), the memoized connection dictionary, and the per-source
connection-attempt oracle fed to `get_connection`. -/
structure Env where
  dbSections : List String
  query : String → Nat → DataFrame
  dct : List (String × Nat)
  attempts : String → Nat → Bool

/-- Model of `ReportTemplate.get_data` (src/templates/__init__.py lines 532-590):
validate `db_type` against `config["DB"]`; when the backup file
`<data_name>.gz` exists in the backup directory, read it back instead of
querying; otherwise resolve a connection (via `get_connection` when none
was passed) and execute the SQL; finally wrap the dataframe in a temp
file unless `data_name` is empty, in which case the raw dataframe is
returned and the open-file list is untouched. -/
def get_data (env : Env) (dir : Dir) (files : List TempFile)
    (tmpStem data_name sql db_type : String) (conn : Option Nat) :
    Except GdError GetDataOk :=
  if env.dbSections.contains db_type then
    let finish := fun (df : DataFrame) (c : Option Nat) (sqlExec : Bool) =>
      if data_name != "" then
        let wrapped := get_temp_file tmpStem data_name df files
        Except.ok { data := .tempFile wrapped.1, connection := c,
                    files := wrapped.2, sqlExecuted := sqlExec }
      else
        Except.ok { data := .frame df, connection := c,
                    files := files, sqlExecuted := sqlExec }
    match lookupFile dir (data_name ++ ".gz") with
    | some (.parquet df) => finish df conn false
    | some (.text _) => .error .parquetError
    | none =>
      match conn with
      | some c => finish (env.query sql c) (some c) true
      | none =>
        match get_connection env.dct db_type (env.attempts db_type) with
        | .ok (c, _) => finish (env.query sql c) (some c) true
        | .error _ => .error .connectionError
  else
    .error .unexpectedDbType

/-- Spreadsheet row/column ceilings checked by `export_data`
(src/templates/__init__.py line 852). -/
def xlsxMaxRows : Nat := 1048576

def xlsxMaxCols : Nat := 16384

/-- The extension strip at the top of `export_data` (lines 843-848):
`report_location.split(".")[0]` when the location contains a dot. -/
def stripExtension (report_location : String) : String :=
  if (pySplit "." report_location).length > 1 then
    headSplit "." report_location
  else
    report_location

/-- Model of `ReportTemplate.export_data` (src/templates/__init__.py lines
815-872), restricted to the returned artifact path: strip any extension
from the report location, then write a CSV at
`<location>__<sheet>.csv` when the dataset exceeds either spreadsheet
ceiling, and an XLSX at `<location>.xlsx` otherwise.  `sheets` is the
running `self._sheets` counter used to default the sheet name. -/
def export_data (file : DataFrame) (report_location sheet : String)
    (_sheets : Nat) : String :=
  let loc := stripExtension report_location
  if xlsxMaxRows < file.index.length ∨ xlsxMaxCols < file.columns.length
  then
    loc ++ "__" ++ sheet ++ ".csv"
  else
    loc ++ ".xlsx"

/-- One row of `SimpleReport.metadata`: a Query Descriptor. -/
structure QueryRow where
  query_name : String
  sql : String
  db_type : String
deriving DecidableEq, Repr

/-- Observable events of one `SimpleReport.run` call, in order
(src/templates/simple.py lines 390-425). -/
inductive RunEvent
  | initWriter
  | getData (name : String)
  | exportData (name : String)
  | deleteBackup
  | emptyReportRaised
  | criticalLogged
  | backupRun
  | operatorPrompt
deriving DecidableEq, Repr

/-- Does the event touch the configured export file?  `initWriter`
(`SimpleReport._get_writer`) deletes any old report whose stem matches
and then creates a blank Excel file at the export path
(src/templates/simple.py lines 157-179 and `get_writer` lines 469-492);
`exportData` writes a sheet or CSV there. -/
def touchesExportFile : RunEvent → Bool
  | .initWriter => true
  | .exportData _ => true
  | _ => false

/-- Event trace of `SimpleReport.run` on the happy path and on the
empty-metadata path: the Excel writer is initialized first in the `try`
block; only then is `len(self.metadata.index) > 0` checked.  Zero rows
raise `EmptyReport`, which the catch-all `except Exception` clause of run
catches: it logs at CRITICAL, calls `self.backup_data()`, and blocks on
`input(...)`.  (Query/export failures inside `_process_queries` follow the
same handler; they are not modelled since no claim depends on them.) -/
def runEvents (metadata : List QueryRow) : List RunEvent :=
  RunEvent.initWriter ::
    (if metadata.length > 0 then
      (metadata.flatMap fun r =>
        [RunEvent.getData r.query_name, RunEvent.exportData r.query_name])
        ++ [RunEvent.deleteBackup]
    else
      [RunEvent.emptyReportRaised, RunEvent.criticalLogged,
       RunEvent.backupRun, RunEvent.operatorPrompt])

/-- Return value of `SimpleReport.run`: the export-location list on
success, `none` when the catch-all failure branch ran (the function falls
off the end of the `except` clause and returns `None`). -/
def runResult (metadata : List QueryRow) (locations : List String) :
    Option (List String) :=
  if metadata.length > 0 then some locations else none

/-! Helper lemmas shared by the claim theorems. -/

theorem isBackupExt_marker : isBackupExt "startDate.txt" = true := by
  decide

/-- After the deletion sweep keeps only non-gz/txt files, the marker can
no longer be looked up. -/
theorem lookupFile_filter_marker (l : Dir) :
    lookupFile (l.filter fun e => !(isBackupExt e.1)) "startDate.txt"
      = none := by
  induction l with
  | nil => rfl
  | cons e t ih =>
    rw [List.filter_cons]
    by_cases h : isBackupExt e.1
    · simp only [h, Bool.not_true, Bool.false_eq_true, if_false]
      exact ih
    · have hb : isBackupExt e.1 = false := by
        rcases hx : isBackupExt e.1 with _ | _
        · rfl
        · exact absurd hx h
      have hne : (e.1 == "startDate.txt") = false := by
        rcases hy : (e.1 == "startDate.txt") with _ | _
        · rfl
        · rw [eq_of_beq hy] at hb
          rw [isBackupExt_marker] at hb
          exact hb
      simp only [hb, Bool.not_false, if_true, lookupFile, hne,
        Bool.false_eq_true, if_false]
      exact ih

/-- Overwriting an existing entry: the lookup afterwards returns the new
content. -/
theorem lookupFile_map_overwrite (n : String) (c : FileData) :
    ∀ (l : Dir), l.any (fun e => e.1 == n) = true →
    lookupFile (l.map fun e => if e.1 == n then (n, c) else e) n = some c := by
  intro l
  induction l with
  | nil => intro h; simp at h
  | cons e t ih =>
    intro h
    rcases he : (e.1 == n) with _ | _
    · have ht : t.any (fun e => e.1 == n) = true := by
        rw [List.any_cons, he, Bool.false_or] at h
        exact h
      simp only [List.map_cons, he, Bool.false_eq_true, if_false, lookupFile]
      exact ih ht
    · simp only [List.map_cons, he, if_true, lookupFile, beq_self_eq_true]

/-- Appending a fresh entry: the lookup afterwards returns its content. -/
theorem lookupFile_append_fresh (n : String) (c : FileData) :
    ∀ (l : Dir), l.any (fun e => e.1 == n) = false →
    lookupFile (l ++ [(n, c)]) n = some c := by
  intro l
  induction l with
  | nil =>
    intro _
    simp only [List.nil_append, lookupFile, beq_self_eq_true, if_true]
  | cons e t ih =>
    intro h
    rw [List.any_cons] at h
    have he : (e.1 == n) = false := by
      rcases hx : (e.1 == n) with _ | _
      · rfl
      · rw [hx] at h; simp at h
    have ht : t.any (fun e => e.1 == n) = false := by
      rw [he, Bool.false_or] at h; exact h
    simp only [List.cons_append, lookupFile, he, Bool.false_eq_true, if_false]
    exact ih ht

/-- Writing a file makes it the content the next lookup returns,
whether or not the name existed before. -/
theorem lookupFile_writeFile (d : Dir) (n : String) (c : FileData) :
    lookupFile (writeFile d n c) n = some c := by
  unfold writeFile
  rcases h : d.any (fun e => e.1 == n) with _ | _
  · simp only [h, Bool.false_eq_true, if_false]
    exact lookupFile_append_fresh n c d h
  · simp only [h, if_true]
    exact lookupFile_map_overwrite n c d h

/-- Prefix property of the deletion trace: any prefix of the event trace
that contains the removal of a file also contains the earlier hook call
for that same file. -/
theorem delTrace_take_hookCall (name : String) :
    ∀ (l : Dir) (n : Nat),
      DelEvent.removed name ∈ (delTrace true l).take n →
      DelEvent.hookCall name ∈ (delTrace true l).take n := by
  intro l
  induction l with
  | nil => intro n h; simp [delTrace] at h
  | cons e t ih =>
    intro n h
    have hcons : delTrace true (e :: t)
        = DelEvent.hookCall e.1 ::
          ((if isBackupExt e.1 then [DelEvent.removed e.1] else [])
            ++ delTrace true t) := by
      simp [delTrace]
    rw [hcons] at h ⊢
    by_cases hx : isBackupExt e.1 = true
    · rw [if_pos hx] at h ⊢
      rw [List.singleton_append] at h ⊢
      match n with
      | 0 => simp at h
      | Nat.succ m =>
        rw [List.take_succ_cons] at h ⊢
        rcases List.mem_cons.1 h with h1 | h2
        · cases h1
        · match m with
          | 0 => simp at h2
          | Nat.succ j =>
            rw [List.take_succ_cons] at h2 ⊢
            rcases List.mem_cons.1 h2 with h3 | h4
            · have hname : name = e.1 := by injection h3
              subst hname
              exact List.mem_cons_self _ _
            · exact List.mem_cons_of_mem _
                (List.mem_cons_of_mem _ (ih j h4))
    · rw [if_neg hx] at h ⊢
      rw [List.nil_append] at h ⊢
      match n with
      | 0 => simp at h
      | Nat.succ m =>
        rw [List.take_succ_cons] at h ⊢
        rcases List.mem_cons.1 h with h1 | h2
        · cases h1
        · exact List.mem_cons_of_mem _ (ih m h2)

/-- Claim C1: attempt_resume satisfies the three-branch contract.  Marker
absent: empty list, directory untouched, no hook.  Marker present with
content equal to the current ISO date: the returned names are exactly the
directory entries whose final extension is gz, the directory is untouched
and the caller-supplied restore hook runs when one was passed.  Marker
present with a different date: delete_data_backup purges the directory
(its resulting state and events) and the empty list is returned. -/
theorem attempt_resume_contract (today : String) (hook1 hook2 : Bool)
    (dir : Dir) :
    (lookupFile dir "startDate.txt" = none →
      attempt_resume today hook1 hook2 dir =
        { file_list := [], dir := dir, hook1Ran := false, delEvents := [] })
    ∧ (∀ d, lookupFile dir "startDate.txt" = some (FileData.text d) →
        d = today →
        attempt_resume today hook1 hook2 dir =
          { file_list := (listdir dir).filter fun f => lastSplit "." f == "gz"
            dir := dir
            hook1Ran := hook1
            delEvents := [] })
    ∧ (∀ d, lookupFile dir "startDate.txt" = some (FileData.text d) →
        d ≠ today →
        attempt_resume today hook1 hook2 dir =
          { file_list := []
            dir := (delete_data_backup hook2 dir).1
            hook1Ran := false
            delEvents := (delete_data_backup hook2 dir).2 }) := by
  refine ⟨?_, ?_, ?_⟩
  · intro h
    simp [attempt_resume, h]
  · intro d h hd
    subst hd
    simp [attempt_resume, h, readText]
  · intro d h hd
    have hb : (d == today) = false := by
      rcases hx : (d == today) with _ | _
      · rfl
      · exact absurd (eq_of_beq hx) hd
    simp [attempt_resume, h, readText, hb]

/-- Witness for C1: one concrete backup directory per branch.  With the
current date 2026-10-12: an empty directory resumes nothing; a directory
whose marker says 2026-10-12 yields exactly the gz file names with the
restore hook run; a directory whose marker says 2026-10-11 is purged. -/
theorem attempt_resume_contract_witness :
    attempt_resume "2026-10-12" true true [] =
      { file_list := [], dir := [], hook1Ran := false, delEvents := [] }
    ∧ attempt_resume "2026-10-12" true true
        [("startDate.txt", FileData.text "2026-10-12"),
         ("Cat.gz", FileData.parquet ⟨[], []⟩)] =
      { file_list := ["Cat.gz"]
        dir := [("startDate.txt", FileData.text "2026-10-12"),
                ("Cat.gz", FileData.parquet ⟨[], []⟩)]
        hook1Ran := true
        delEvents := [] }
    ∧ attempt_resume "2026-10-12" true true
        [("startDate.txt", FileData.text "2026-10-11"),
         ("Cat.gz", FileData.parquet ⟨[], []⟩)] =
      { file_list := []
        dir := []
        hook1Ran := false
        delEvents := [DelEvent.hookCall "startDate.txt",
                      DelEvent.removed "startDate.txt",
                      DelEvent.hookCall "Cat.gz",
                      DelEvent.removed "Cat.gz"] } := by
  refine ⟨?_, ?_, ?_⟩
  · exact (attempt_resume_contract "2026-10-12" true true []).1 rfl
  · have h := (attempt_resume_contract "2026-10-12" true true
      [("startDate.txt", FileData.text "2026-10-12"),
       ("Cat.gz", FileData.parquet ⟨[], []⟩)]).2.1 "2026-10-12" rfl rfl
    rw [h]
    decide
  · have h := (attempt_resume_contract "2026-10-12" true true
      [("startDate.txt", FileData.text "2026-10-11"),
       ("Cat.gz", FileData.parquet ⟨[], []⟩)]).2.2 "2026-10-11" rfl
      (by decide)
    rw [h]
    decide

/-- Claim C7: attempt_resume is an idempotent read — for every starting
state of the backup directory, a second call (no intervening backup_data)
returns the same file list as the first. -/
theorem attempt_resume_idempotent (today : String) (dir : Dir) :
    (attempt_resume today false false
        (attempt_resume today false false dir).dir).file_list
      = (attempt_resume today false false dir).file_list := by
  rcases h : lookupFile dir "startDate.txt" with - | content
  · simp [attempt_resume, h]
  · rcases hb : (readText content == today) with _ | _
    · simp only [attempt_resume, h, hb, Bool.false_eq_true, if_false,
        delete_data_backup, lookupFile_filter_marker]
    · simp [attempt_resume, h, hb]

/-- Claim C8: after delete_data_backup no gz or txt file remains in the
backup directory, every listed file got a hook call, and in every prefix
of the event trace a removal of a file is preceded by the hook call for
that file. -/
theorem delete_data_backup_postcondition (dir : Dir) :
    (∀ e ∈ (delete_data_backup true dir).1, isBackupExt e.1 = false)
    ∧ (∀ name ∈ listdir dir,
        DelEvent.hookCall name ∈ (delete_data_backup true dir).2)
    ∧ (∀ n name,
        DelEvent.removed name ∈ ((delete_data_backup true dir).2.take n) →
        DelEvent.hookCall name ∈ ((delete_data_backup true dir).2.take n)) := by
  refine ⟨?_, ?_, ?_⟩
  · intro e he
    have hm := (List.mem_filter.1 he).2
    simpa using hm
  · intro name hn
    rcases List.mem_map.1 hn with ⟨e, he, hname⟩
    subst hname
    exact List.mem_flatMap.2 ⟨e, he, by simp⟩
  · intro n name h
    exact delTrace_take_hookCall name dir n h

/-- Counterexample to C2 as stated: backup_data writes the marker with the
start date captured at initialization, not the calendar date at the moment
it executes.  Scenario: the report object was initialized on 2026-10-11
(so start_date is 2026-10-11) and backup_data runs after midnight on
2026-10-12 — the marker content is 2026-10-11, which differs from the
current calendar date. -/
theorem backup_data_marker_holds_init_date :
    backup_data true "2026-10-11" [] []
      = Except.ok ([("startDate.txt", FileData.text "2026-10-11")],
          [BkEvent.hookRun, BkEvent.markerWritten "2026-10-11"])
    ∧ ("2026-10-11" : String) ≠ "2026-10-12" :=
  ⟨rfl, by decide⟩

/-- Claim C2 (amended): on every call to backup_data that completes
normally, the marker write is the last event — after all per-file copies
and after the optional hook — it overwrites any previous marker, and its
content is the run start_date captured at initialization (which equals
the current calendar date only when backup_data runs the same day the
report object was constructed). -/
theorem backup_data_marker_last (hookPresent : Bool) (start_date : String)
    (files : List TempFile) (dir d : Dir) (evs : List BkEvent)
    (h : backup_data hookPresent start_date files dir
      = Except.ok (d, evs)) :
    evs.getLast? = some (BkEvent.markerWritten start_date)
    ∧ lookupFile d "startDate.txt" = some (FileData.text start_date)
    ∧ (hookPresent = true → BkEvent.hookRun ∈ evs.dropLast) := by
  unfold backup_data at h
  rcases hc : copyFiles dir files with e | p
  · rw [hc] at h
    cases h
  · rw [hc] at h
    obtain ⟨d0, evs0⟩ := p
    simp only [Except.ok.injEq, Prod.mk.injEq] at h
    obtain ⟨hd, hevs⟩ := h
    subst hd
    subst hevs
    refine ⟨List.getLast?_concat _, lookupFile_writeFile _ _ _, ?_⟩
    intro hp
    rw [List.dropLast_concat, if_pos hp]
    exact List.mem_append_right _ (by simp)

/-- Witness for C2 (amended): a concrete successful backup of one file on
2026-10-12 ends its trace with the marker write, the marker contains the
start date, and the hook ran before the marker. -/
theorem backup_data_marker_last_witness :
    ([BkEvent.copied "Cat.gz", BkEvent.hookRun,
      BkEvent.markerWritten "2026-10-12"] : List BkEvent).getLast?
        = some (BkEvent.markerWritten "2026-10-12")
    ∧ lookupFile [("Cat.gz", FileData.parquet ⟨[], []⟩),
        ("startDate.txt", FileData.text "2026-10-12")] "startDate.txt"
        = some (FileData.text "2026-10-12")
    ∧ (true = true → BkEvent.hookRun ∈
        ([BkEvent.copied "Cat.gz", BkEvent.hookRun,
          BkEvent.markerWritten "2026-10-12"] : List BkEvent).dropLast) :=
  backup_data_marker_last true "2026-10-12"
    [{ name := "tmp1__Cat.gz", hasName := true, existsOnDisk := true,
       content := ⟨[], []⟩, copyOutcome := .ok }] []
    [("Cat.gz", FileData.parquet ⟨[], []⟩),
     ("startDate.txt", FileData.text "2026-10-12")]
    [BkEvent.copied "Cat.gz", BkEvent.hookRun,
     BkEvent.markerWritten "2026-10-12"] rfl

/-- Counterexample to C6 as stated: a copy failure is NOT always
swallowed.  A file whose copy body raises an exception other than
AttributeError (for instance an OSError) makes backup_data propagate the
exception: no marker is written and the call fails. -/
theorem backup_data_other_error_propagates :
    backup_data false "2026-10-12"
      [{ name := "tmp1__Cat.gz", hasName := true, existsOnDisk := true,
         content := ⟨[], []⟩, copyOutcome := .otherError }] []
      = Except.error () := rfl

/-- Claim C6 (amended): during the copy loop of backup_data an
AttributeError raised for one file is caught and the loop continues with
the remaining files (and files failing the eligibility guards are
skipped the same way), but an exception of any other type raised while
copying an eligible file propagates and aborts the whole backup. -/
theorem backup_data_copy_failures (hookPresent : Bool)
    (start_date : String) (f : TempFile) (fs : List TempFile) (dir : Dir) :
    (f.copyOutcome = CopyOutcome.attributeError →
      backup_data hookPresent start_date (f :: fs) dir
        = backup_data hookPresent start_date fs dir)
    ∧ (backupEligible f = true →
        f.copyOutcome = CopyOutcome.otherError →
        backup_data hookPresent start_date (f :: fs) dir
          = Except.error ()) := by
  constructor
  · intro hao
    have hcf : copyFiles dir (f :: fs) = copyFiles dir fs := by
      by_cases hx : backupEligible f = true
      · simp [copyFiles, hx, hao]
      · simp [copyFiles, hx]
    unfold backup_data
    rw [hcf]
  · intro he ho
    simp [backup_data, copyFiles, he, ho]

/-- Witness for C6 (amended): with one concrete file list each, an
AttributeError during the copy makes backup_data behave as if the file
were absent, while an OSError-like failure aborts the call. -/
theorem backup_data_copy_failures_witness :
    backup_data true "2026-10-12"
      [{ name := "tmp1__Cat.gz", hasName := true, existsOnDisk := true,
         content := ⟨[], []⟩, copyOutcome := .attributeError }] []
      = backup_data true "2026-10-12" [] []
    ∧ backup_data true "2026-10-12"
      [{ name := "tmp1__Cat.gz", hasName := true, existsOnDisk := true,
         content := ⟨[], []⟩, copyOutcome := .otherError }] []
      = Except.error () :=
  ⟨(backup_data_copy_failures true "2026-10-12"
      { name := "tmp1__Cat.gz", hasName := true, existsOnDisk := true,
        content := ⟨[], []⟩, copyOutcome := .attributeError } [] []).1 rfl,
   (backup_data_copy_failures true "2026-10-12"
      { name := "tmp1__Cat.gz", hasName := true, existsOnDisk := true,
        content := ⟨[], []⟩, copyOutcome := .otherError } [] []).2
     (by decide) rfl⟩

/-- Exhausting the retry loop: when every tolerated attempt fails, the
loop raises. -/
theorem connRetry_all_fail (attempts : Nat → Bool) :
    ∀ (r k : Nat), (∀ n, n ≤ k + r → attempts n = false) →
      connRetry attempts k r = Except.error () := by
  intro r
  induction r with
  | zero =>
    intro k h
    have hk : attempts k = false := h k (by omega)
    simp [connRetry, hk]
  | succ r ih =>
    intro k h
    have hk : attempts k = false := h k (by omega)
    simp only [connRetry, hk, Bool.false_eq_true, if_false]
    exact ih (k + 1) (fun n hn => h n (by omega))

/-- First success inside the budget: when attempt `k + j` is the first
success and `j` does not exceed the remaining budget, the loop returns
the handle created at that attempt. -/
theorem connRetry_first_success (attempts : Nat → Bool) :
    ∀ (j r k : Nat), j ≤ r →
      (∀ i, i < j → attempts (k + i) = false) →
      attempts (k + j) = true →
      connRetry attempts k r = Except.ok (k + j) := by
  intro j
  induction j with
  | zero =>
    intro r k _ _ hs
    rw [Nat.add_zero] at hs
    cases r with
    | zero => simp [connRetry, hs]
    | succ r => simp [connRetry, hs]
  | succ j ih =>
    intro r k hjr hf hs
    have hk : attempts k = false := by
      have h0 := hf 0 (Nat.succ_pos j)
      rwa [Nat.add_zero] at h0
    cases r with
    | zero => omega
    | succ r =>
      simp only [connRetry, hk, Bool.false_eq_true, if_false]
      have hf2 : ∀ i, i < j → attempts (k + 1 + i) = false := by
        intro i hi
        have hx := hf (i + 1) (by omega)
        rwa [show k + (i + 1) = k + 1 + i by omega] at hx
      have hs2 : attempts (k + 1 + j) = true := by
        rwa [show k + (j + 1) = k + 1 + j by omega] at hs
      have hrec := ih r (k + 1) (by omega) hf2 hs2
      rwa [show k + 1 + j = k + (j + 1) by omega] at hrec

/-- Counterexample to C5 as stated: the retry cap is not 5 failed
attempts.  With an attempt oracle that fails the first five connection
attempts (indices 0 through 4) and succeeds on the sixth, get_connection
does not raise a connection error after the 5 failures — it retries a
sixth time and returns the new handle. -/
theorem get_connection_five_failures_still_tries :
    ((fun n => decide (n = 5)) 0 = false
      ∧ (fun n => decide (n = 5)) 1 = false
      ∧ (fun n => decide (n = 5)) 2 = false
      ∧ (fun n => decide (n = 5)) 3 = false
      ∧ (fun n => decide (n = 5)) 4 = false)
    ∧ get_connection [] "warehouse" (fun n => decide (n = 5))
        = Except.ok (5, [("warehouse", 5)]) :=
  ⟨⟨rfl, rfl, rfl, rfl, rfl⟩, rfl⟩

/-- Claim C5 (amended): for a memoized source get_connection returns the
stored handle; for a fresh source it raises the connection error only
after 6 failed connection attempts (the initial attempt plus the 5
credentialed retries the code caps at), and whenever one of the first 6
attempts succeeds it returns the new handle and memoizes it. -/
theorem get_connection_retry_budget (dct : List (String × Nat))
    (database_name : String) (attempts : Nat → Bool) :
    (∀ c, dct.lookup database_name = some c →
      get_connection dct database_name attempts = Except.ok (c, dct))
    ∧ (dct.lookup database_name = none →
        ((∀ n, n ≤ 5 → attempts n = false) →
          get_connection dct database_name attempts = Except.error ())
        ∧ (∀ k, k ≤ 5 → (∀ j, j < k → attempts j = false) →
            attempts k = true →
            get_connection dct database_name attempts
              = Except.ok (k, dct ++ [(database_name, k)]))) := by
  constructor
  · intro c hc
    simp [get_connection, hc]
  · intro hn
    constructor
    · intro hf
      have hall := connRetry_all_fail attempts 5 0 (fun n h => hf n (by omega))
      simp [get_connection, hn, hall]
    · intro k hk hf hs
      have hfst := connRetry_first_success attempts k 5 0 hk
        (fun i hi => by simpa using hf i hi) (by simpa using hs)
      simp [get_connection, hn, hfst]

/-- Witness for C5 (amended): a memoized lookup, a permanently failing
oracle exhausting the budget, and a success on the third attempt. -/
theorem get_connection_retry_budget_witness :
    get_connection [("warehouse", 7)] "warehouse" (fun _ => false)
      = Except.ok (7, [("warehouse", 7)])
    ∧ get_connection [] "warehouse" (fun _ => false) = Except.error ()
    ∧ get_connection [] "warehouse" (fun n => decide (n = 2))
      = Except.ok (2, [("warehouse", 2)]) := by
  refine ⟨?_, ?_, ?_⟩
  · exact (get_connection_retry_budget [("warehouse", 7)] "warehouse"
      (fun _ => false)).1 7 rfl
  · exact ((get_connection_retry_budget [] "warehouse"
      (fun _ => false)).2 rfl).1 (fun n _ => rfl)
  · exact ((get_connection_retry_budget [] "warehouse"
      (fun n => decide (n = 2))).2 rfl).2 2 (by omega)
      (fun j hj => by interval_cases j <;> rfl) rfl

/-- Claim C3: when the backup file <data_name>.gz exists in the backup
directory, get_data executes no SQL and hands back (possibly wrapped in a
fresh temp file) exactly the dataframe deserialized from the backup, with
the connection argument passed through untouched; when no such backup
exists, any successful call executed the SQL against the (possibly newly
resolved) connection. -/
theorem get_data_backup_shortcut (env : Env) (dir : Dir)
    (files : List TempFile) (tmpStem data_name sql db_type : String)
    (conn : Option Nat)
    (hdb : env.dbSections.contains db_type = true) :
    (∀ df, lookupFile dir (data_name ++ ".gz") = some (FileData.parquet df) →
      ∃ r, get_data env dir files tmpStem data_name sql db_type conn
            = Except.ok r
        ∧ r.sqlExecuted = false
        ∧ r.connection = conn
        ∧ r.data.contentOf = df)
    ∧ (lookupFile dir (data_name ++ ".gz") = none →
        ∀ r, get_data env dir files tmpStem data_name sql db_type conn
              = Except.ok r →
          r.sqlExecuted = true
          ∧ ∃ c, r.connection = some c
              ∧ r.data.contentOf = env.query sql c) := by
  constructor
  · intro df hb
    simp only [get_data, hdb, if_true, hb]
    by_cases hn : (data_name != "") = true
    · rw [if_pos hn]
      exact ⟨_, rfl, rfl, rfl, rfl⟩
    · rw [if_neg hn]
      exact ⟨_, rfl, rfl, rfl, rfl⟩
  · intro hb r hr
    simp only [get_data, hdb, if_true, hb] at hr
    split at hr
    · split at hr
      · cases hr
        exact ⟨rfl, _, rfl, rfl⟩
      · cases hr
        exact ⟨rfl, _, rfl, rfl⟩
    · split at hr
      · split at hr
        · cases hr
          exact ⟨rfl, _, rfl, rfl⟩
        · cases hr
          exact ⟨rfl, _, rfl, rfl⟩
      · cases hr

/-- Witness for C3: a concrete backed-up dataset Cat is read back without
a query, and the same call against an empty backup directory runs the
query through a freshly resolved connection. -/
theorem get_data_backup_shortcut_witness :
    (∃ r, get_data
        { dbSections := ["sqlite"], query := fun _ _ => ⟨["q"], [["v"]]⟩,
          dct := [], attempts := fun _ _ => true }
        [("Cat.gz", FileData.parquet ⟨["a"], [["1"]]⟩)] [] "tmp1" "Cat"
        "SELECT 1" "sqlite" none = Except.ok r
      ∧ r.sqlExecuted = false
      ∧ r.connection = none
      ∧ r.data.contentOf = ⟨["a"], [["1"]]⟩)
    ∧ (∃ r, get_data
        { dbSections := ["sqlite"], query := fun _ _ => ⟨["q"], [["v"]]⟩,
          dct := [], attempts := fun _ _ => true }
        [] [] "tmp1" "Cat" "SELECT 1" "sqlite" none = Except.ok r
      ∧ r.sqlExecuted = true
      ∧ ∃ c, r.connection = some c
          ∧ r.data.contentOf = ⟨["q"], [["v"]]⟩) := by
  constructor
  · exact (get_data_backup_shortcut
      { dbSections := ["sqlite"], query := fun _ _ => ⟨["q"], [["v"]]⟩,
        dct := [], attempts := fun _ _ => true }
      [("Cat.gz", FileData.parquet ⟨["a"], [["1"]]⟩)] [] "tmp1" "Cat"
      "SELECT 1" "sqlite" none rfl).1 ⟨["a"], [["1"]]⟩ rfl
  · refine ⟨_, rfl, ?_⟩
    exact (get_data_backup_shortcut
      { dbSections := ["sqlite"], query := fun _ _ => ⟨["q"], [["v"]]⟩,
        dct := [], attempts := fun _ _ => true }
      [] [] "tmp1" "Cat" "SELECT 1" "sqlite" none rfl).2 rfl _ rfl

/-- Claim C10: a get_data call with an empty dataset name that succeeds
returns the raw in-memory dataframe (never a temp-file handle) and leaves
the run-scoped open-file list unchanged, so its result can never end up
in a backup. -/
theorem get_data_unnamed_frame (env : Env) (dir : Dir)
    (files : List TempFile) (tmpStem sql db_type : String)
    (conn : Option Nat)
    (hdb : env.dbSections.contains db_type = true) :
    ∀ r, get_data env dir files tmpStem "" sql db_type conn = Except.ok r →
      r.files = files ∧ ∃ df, r.data = DataResult.frame df := by
  intro r hr
  simp only [get_data, hdb, if_true] at hr
  split at hr
  · split at hr
    · rename_i hfalse
      exact absurd hfalse (by decide)
    · cases hr
      exact ⟨rfl, _, rfl⟩
  · cases hr
  · split at hr
    · split at hr
      · rename_i hfalse
        exact absurd hfalse (by decide)
      · cases hr
        exact ⟨rfl, _, rfl⟩
    · split at hr
      · split at hr
        · rename_i hfalse
          exact absurd hfalse (by decide)
        · cases hr
          exact ⟨rfl, _, rfl⟩
      · cases hr

/-- Witness for C10: a concrete unnamed call with a supplied connection
returns the raw dataframe and the file list is left unchanged. -/
theorem get_data_unnamed_frame_witness :
    ∃ r, get_data
        { dbSections := ["sqlite"], query := fun _ _ => ⟨["q"], [["v"]]⟩,
          dct := [], attempts := fun _ _ => true }
        [] [] "tmp1" "" "SELECT 1" "sqlite" (some 3) = Except.ok r
      ∧ r.files = ([] : List TempFile)
      ∧ ∃ df, r.data = DataResult.frame df := by
  refine ⟨_, rfl, ?_⟩
  exact get_data_unnamed_frame
    { dbSections := ["sqlite"], query := fun _ _ => ⟨["q"], [["v"]]⟩,
      dct := [], attempts := fun _ _ => true }
    [] [] "tmp1" "SELECT 1" "sqlite" (some 3) rfl _ rfl

/-- Claim C4: export_data writes an xlsx artifact (a returned path ending
in .xlsx) exactly when the dataset fits both spreadsheet ceilings, and
otherwise writes a CSV at the extension-stripped report location plus
"__", the sheet name and ".csv". -/
theorem export_data_size_threshold (file : DataFrame)
    (report_location sheet : String) (sheets : Nat) :
    (file.index.length ≤ xlsxMaxRows ∧ file.columns.length ≤ xlsxMaxCols →
      ∃ p, export_data file report_location sheet sheets = p ++ ".xlsx")
    ∧ (xlsxMaxRows < file.index.length ∨ xlsxMaxCols < file.columns.length →
      export_data file report_location sheet sheets
        = stripExtension report_location ++ "__" ++ sheet ++ ".csv") := by
  constructor
  · rintro ⟨h1, h2⟩
    refine ⟨stripExtension report_location, ?_⟩
    unfold export_data
    rw [if_neg (by rintro (hx | hx) <;> omega)]
  · intro h
    unfold export_data
    rw [if_pos h]

/-- Witness for C4 at the exact boundary: 1,048,576 rows still exports to
xlsx; 1,048,577 rows exports to the CSV sidecar path. -/
theorem export_data_size_threshold_witness :
    (∃ p, export_data ⟨["c"], List.replicate 1048576 []⟩ "report" "Sales" 1
      = p ++ ".xlsx")
    ∧ export_data ⟨["c"], List.replicate 1048577 []⟩ "report" "Sales" 1
      = stripExtension "report" ++ "__" ++ "Sales" ++ ".csv" := by
  constructor
  · apply (export_data_size_threshold ⟨["c"], List.replicate 1048576 []⟩
      "report" "Sales" 1).1
    constructor
    · show (List.replicate 1048576 ([] : List String)).length ≤ xlsxMaxRows
      rw [List.length_replicate]
      decide
    · decide
  · apply (export_data_size_threshold ⟨["c"], List.replicate 1048577 []⟩
      "report" "Sales" 1).2
    apply Or.inl
    show xlsxMaxRows < (List.replicate 1048577 ([] : List String)).length
    rw [List.length_replicate]
    decide

/-- Counterexample to C9 as stated: on a run with zero registered
queries, work does begin before the empty-report error — the very first
step of run initializes the Excel writer, which deletes any old report
file and creates a blank export file at the export path, and only then is
the error raised. -/
theorem run_inits_writer_before_empty_check :
    runEvents [] = [RunEvent.initWriter, RunEvent.emptyReportRaised,
      RunEvent.criticalLogged, RunEvent.backupRun, RunEvent.operatorPrompt]
    ∧ touchesExportFile RunEvent.initWriter = true :=
  ⟨rfl, rfl⟩

/-- Claim C9 (amended): with zero registered queries, run first
initializes the Excel writer (touching the export file), then raises the
empty-report error before any query is dispatched or any dataset
exported; the error is caught by the catch-all handler of run, which logs
CRITICAL, backs up data and blocks on an operator prompt, and the run
produces no export locations. -/
theorem run_empty_metadata_behavior :
    runEvents [] = [RunEvent.initWriter, RunEvent.emptyReportRaised,
      RunEvent.criticalLogged, RunEvent.backupRun, RunEvent.operatorPrompt]
    ∧ (∀ name, RunEvent.getData name ∉ runEvents [])
    ∧ (∀ name, RunEvent.exportData name ∉ runEvents [])
    ∧ (∀ locations, runResult [] locations = none) := by
  refine ⟨rfl, ?_, ?_, ?_⟩
  · intro name h
    simp [runEvents] at h
  · intro name h
    simp [runEvents] at h
  · intro locations
    rfl

end Reportio